import Mathlib

/-!
Verification of the llm-proxy-rs translation engine.

This file shallowly embeds the request/response translation code of the
repository (crates `request`, `response`, `chat`, `server`) as executable
Lean definitions, and proves or refutes the frozen specification claims
about them.

Conventions of the embedding:
- Rust `Vec` becomes `List`, `Option` becomes `Option`, fallible
  functions (`anyhow::Result`) become `Except String`.
- AWS SDK builder calls are modelled by constructors that fail exactly
  when a required field is absent (mirroring `build()`'s `BuildError`).
- `serde_json::from_str` is an external crate call; it is abstracted as
  a parameter `jp : String -> Option JsonValue` wherever the code parses
  JSON, and theorems quantify over it.  `serde_json::to_string` on the
  response structs is total and is modelled as always succeeding.
- Numbers from `serde_json` are modelled as integer-or-float mirroring
  the `as_i64` / float-fallback split in `value_to_document`.
- Optional sampling fields of `ChatCompletionsRequest` that no embedded
  code path reads (temperature, penalties, ...) are omitted from the
  record.
-/

namespace LlmProxy

/-- Roles of an inbound chat message (`request::Role`). -/
inductive Role where
  | assistant
  | system
  | user
  | tool
deriving DecidableEq, Repr

/-- A content block of an inbound message (`request::Content`); the only
variant in scope is text. -/
inductive Content where
  | text (text : String)
deriving DecidableEq, Repr

/-- Message content (`request::Contents`): a plain string or an ordered
list of content blocks. -/
inductive Contents where
  | array (blocks : List Content)
  | string (s : String)
deriving DecidableEq, Repr

/-- `Contents::is_empty`. -/
def Contents.isEmpty : Contents → Bool
  | .string s => s.isEmpty
  | .array blocks => blocks.isEmpty

/-- An OpenAI function call carried inside a tool call
(`request::OpenAIFunctionCall`). -/
structure OpenAIFunctionCall where
  name : String
  arguments : String
deriving DecidableEq, Repr

/-- An OpenAI tool call on an assistant message (`request::OpenAIToolCall`). -/
structure OpenAIToolCall where
  id : String
  tool_type : String
  function : OpenAIFunctionCall
deriving DecidableEq, Repr

/-- An inbound chat message (`request::Message`). -/
structure Message where
  contents : Option Contents
  role : Role
  tool_calls : Option (List OpenAIToolCall)
  tool_call_id : Option String
deriving DecidableEq, Repr

/-- JSON numbers as seen through `serde_json`: the `as_i64` view or the
float fallback of `value_to_document`. -/
inductive JNum where
  | int (n : Int)
  | float (x : Float)
deriving Repr

/-- A `serde_json::Value`. -/
inductive JsonValue where
  | null
  | bool (b : Bool)
  | num (n : JNum)
  | str (s : String)
  | arr (elems : List JsonValue)
  | obj (fields : List (String × JsonValue))
deriving Repr

/-- A number inside an `aws_smithy_types::Document`. -/
inductive DNum where
  | posInt (n : Nat)
  | negInt (n : Int)
  | float (x : Float)
deriving Repr

/-- An `aws_smithy_types::Document` (generic structured value). -/
inductive Document where
  | null
  | bool (b : Bool)
  | number (n : DNum)
  | str (s : String)
  | arr (elems : List Document)
  | obj (fields : List (String × Document))
deriving Repr

/-- `request::value_to_document` (identical copy in `chat::bedrock`):
total mapping from a JSON value to a structured-value document. -/
def value_to_document : JsonValue → Document
  | .null => .null
  | .bool b => .bool b
  | .num (.int i) =>
      .number (if i ≥ 0 then .posInt i.toNat else .negInt i)
  | .num (.float x) => .number (.float x)
  | .str s => .str s
  | .arr a => .arr (a.attach.map fun v => value_to_document v.1)
  | .obj o => .obj (o.attach.map fun kv => (kv.1.1, value_to_document kv.1.2))
decreasing_by
  · have h := List.sizeOf_lt_of_mem v.2
    simp only [JsonValue.arr.sizeOf_spec]
    omega
  · have h := List.sizeOf_lt_of_mem kv.2
    have h2 : sizeOf kv.1.2 < sizeOf kv.1 := by
      obtain ⟨⟨k, w⟩, hm⟩ := kv
      simp only [Prod.mk.sizeOf_spec]
      omega
    simp only [JsonValue.obj.sizeOf_spec]
    omega

/-- `aws_sdk_bedrockruntime::types::ConversationRole`. -/
inductive ConversationRole where
  | assistant
  | user
deriving DecidableEq, Repr

/-- `aws_sdk_bedrockruntime::types::SystemContentBlock` (text variant). -/
inductive SystemContentBlock where
  | text (s : String)
deriving DecidableEq, Repr

/-- `aws_sdk_bedrockruntime::types::ToolUseBlock`. -/
structure ToolUseBlock where
  tool_use_id : String
  name : String
  input : Document
deriving Repr

/-- `aws_sdk_bedrockruntime::types::ToolResultContentBlock` (text variant). -/
inductive ToolResultContentBlock where
  | text (s : String)
deriving DecidableEq, Repr

/-- `aws_sdk_bedrockruntime::types::ToolResultBlock`. -/
structure ToolResultBlock where
  tool_use_id : String
  content : List ToolResultContentBlock
deriving DecidableEq, Repr

/-- `aws_sdk_bedrockruntime::types::ContentBlock`. -/
inductive ContentBlock where
  | text (s : String)
  | toolUse (block : ToolUseBlock)
  | toolResult (block : ToolResultBlock)
deriving Repr

/-- An `aws_sdk_bedrockruntime::types::Message` (backend message). -/
structure BedrockMessage where
  role : ConversationRole
  content : List ContentBlock
deriving Repr

/-- The backend `Message` builder: `build()` fails when the required
`role` or `content` member was never set. -/
def bedrockMessageBuild (role : Option ConversationRole)
    (content : Option (List ContentBlock)) : Except String BedrockMessage :=
  match role, content with
  | some r, some c => .ok { role := r, content := c }
  | _, _ => .error "missing required field"

/-- `From<&Contents> for Vec<ContentBlock>`. -/
def contentsToContentBlocks : Contents → List ContentBlock
  | .array arr => arr.map fun c => match c with
      | .text t => ContentBlock.text t
  | .string s => [ContentBlock.text s]

/-- `From<&Contents> for Vec<SystemContentBlock>`. -/
def contentsToSystemBlocks : Contents → List SystemContentBlock
  | .array arr => arr.map fun c => match c with
      | .text t => SystemContentBlock.text t
  | .string s => [SystemContentBlock.text s]

/-- `TryFrom<&Contents> for Vec<ToolResultContentBlock>`: fails on empty
contents. -/
def contentsToToolResultBlocks (c : Contents) :
    Except String (List ToolResultContentBlock) :=
  if c.isEmpty then .error "Tool message contents cannot be empty"
  else match c with
    | .string result => .ok [ToolResultContentBlock.text result]
    | .array blocks => .ok (blocks.map fun b => match b with
        | .text t => ToolResultContentBlock.text t)

/-- `TryFrom<&OpenAIToolCall> for ToolUseBlock`: the `arguments` string
is parsed as JSON via the external parser `jp`; on failure an empty
object document is substituted.  The builder has all required fields
set, so it never fails. -/
def toolUseBlockOfCall (jp : String → Option JsonValue)
    (call : OpenAIToolCall) : ToolUseBlock :=
  { tool_use_id := call.id
    name := call.function.name
    input :=
      match jp call.function.arguments with
      | some v => value_to_document v
      | none => .obj [] }

/-- `TryFrom<&Message> for ToolResultBlock`: fails when `contents` or
`tool_call_id` is absent, or when contents are empty. -/
def toolResultBlockOfMessage (m : Message) : Except String ToolResultBlock := do
  let contents ← match m.contents with
    | some c => pure c
    | none => .error "Tool message must have contents"
  let tid ← match m.tool_call_id with
    | some t => pure t
    | none => .error "Tool message must have tool_call_id"
  let blocks ← contentsToToolResultBlocks contents
  return { tool_use_id := tid, content := blocks }

/-- `TryFrom<&Message> for aws_sdk_bedrockruntime::types::Message`. -/
def messageTryFrom (jp : String → Option JsonValue) (m : Message) :
    Except String BedrockMessage :=
  match m.role with
  | .assistant =>
      let blocks := (m.contents.map contentsToContentBlocks).getD []
      let blocks :=
        match m.tool_calls with
        | some calls => blocks ++ calls.map fun c =>
            ContentBlock.toolUse (toolUseBlockOfCall jp c)
        | none => blocks
      bedrockMessageBuild (some .assistant) (some blocks)
  | .tool => do
      let tr ← toolResultBlockOfMessage m
      bedrockMessageBuild (some .user) (some [ContentBlock.toolResult tr])
  | .user | .system =>
      bedrockMessageBuild (some .user) (m.contents.map contentsToContentBlocks)

/-- An OpenAI tool function definition (`request::OpenAIToolFunction`). -/
structure OpenAIToolFunction where
  name : String
  description : Option String
  parameters : JsonValue
deriving Repr

/-- An OpenAI tool definition (`request::OpenAITool`). -/
structure OpenAITool where
  tool_type : String
  function : OpenAIToolFunction
deriving Repr

/-- `request::OpenAIToolChoice`: a bare mode string or an object naming a
specific function. -/
inductive OpenAIToolChoice where
  | ofString (s : String)
  | ofObject (tool_type : String) (name : String)
deriving Repr

/-- The inbound request (`request::ChatCompletionsRequest`), restricted to
the fields the embedded code paths read. -/
structure ChatCompletionsRequest where
  model : String
  messages : List Message
  stream : Option Bool
  tools : Option (List OpenAITool)
  tool_choice : Option OpenAIToolChoice
deriving Repr

/-- `aws_sdk_bedrockruntime::types::ToolSpecification`. -/
structure ToolSpecification where
  name : String
  description : Option String
  input_schema : Document
deriving Repr

/-- `aws_sdk_bedrockruntime::types::ToolChoice`. -/
inductive BedrockToolChoice where
  | auto
  | any
  | tool (name : String)
deriving Repr

/-- `aws_sdk_bedrockruntime::types::ToolConfiguration`. -/
structure ToolConfiguration where
  tools : List ToolSpecification
  tool_choice : Option BedrockToolChoice
deriving Repr

/-- The translation target (`chat::bedrock::BedrockChatCompletion`). -/
structure BedrockChatCompletion where
  model_id : String
  system_content_blocks : List SystemContentBlock
  messages : List BedrockMessage
  tool_config : Option ToolConfiguration
deriving Repr

/-- `chat::bedrock::openai_tools_to_bedrock_tool_config`.  The
`ToolConfiguration` builder requires its `tools` member, which is only
populated by appending one entry per tool, so an empty tool list makes
`build()` fail. -/
def openai_tools_to_bedrock_tool_config (tools : List OpenAITool)
    (choice : Option OpenAIToolChoice) : Except String ToolConfiguration :=
  let specs := tools.map fun t =>
    { name := t.function.name
      description := t.function.description
      input_schema := value_to_document t.function.parameters : ToolSpecification }
  let tchoice : Option BedrockToolChoice :=
    match choice with
    | some (.ofString s) =>
        if s = "none" then none
        else if s = "required" then some .any
        else some .auto
    | some (.ofObject _ name) => some (.tool name)
    | none => some .auto
  if specs.isEmpty then .error "ToolConfiguration missing required field tools"
  else .ok { tools := specs, tool_choice := tchoice }

/-- The text appended to system messages when tools are declared
(verbatim from `chat::bedrock`). -/
def importantNote : String :=
  "IMPORTANT: Always use the available functions when appropriate. For time queries, use get_current_time. For fibonacci calculations, use fibonacci."

/-- The system-content group contributed by one System message
(`chat::bedrock`, `Role::System` arm): without tools the plain
conversion; with tools the enhanced form. -/
def systemGroup (hasTools : Bool) (c : Contents) : List SystemContentBlock :=
  if hasTools then
    match c with
    | .string original =>
        [SystemContentBlock.text (original ++ " " ++ importantNote)]
    | .array _ =>
        contentsToSystemBlocks c ++ contentsToSystemBlocks c
          ++ [SystemContentBlock.text importantNote]
  else contentsToSystemBlocks c

/-- The skip condition of the message loop: an Assistant message that has
`tool_calls` but no content (absent, or an empty string). -/
def assistantSkip (m : Message) : Bool :=
  m.role == .assistant && m.tool_calls.isSome &&
    (m.contents.isNone ||
      (match m.contents with
       | some (.string s) => s.isEmpty
       | _ => false))

/-- The reduction of Tool-message contents to a single result string
(`chat::bedrock`, `Role::Tool` arm). -/
def toolResultText : Contents → String
  | .string result => result
  | .array blocks =>
      String.intercalate " " (blocks.map fun b => match b with
        | .text t => t)

/-- One iteration of the message loop of
`process_chat_completions_request_to_bedrock_chat_completion`: the
system blocks and backend messages contributed by one inbound message. -/
def processOne (jp : String → Option JsonValue) (hasTools : Bool)
    (m : Message) :
    Except String (List SystemContentBlock × List BedrockMessage) :=
  match m.role with
  | .assistant | .user =>
      if assistantSkip m then .ok ([], [])
      else (messageTryFrom jp m).map fun bm => ([], [bm])
  | .system =>
      match m.contents with
      | some c => .ok (systemGroup hasTools c, [])
      | none => .ok ([], [])
  | .tool =>
      match m.contents with
      | some c => do
          let bm ← bedrockMessageBuild (some .user)
            (some [ContentBlock.text ("Function result: " ++ toolResultText c)])
          .ok ([], [bm])
      | none => .ok ([], [])

/-- The whole message loop, in order, with first-error abort. -/
def processMessages (jp : String → Option JsonValue) (hasTools : Bool) :
    List Message →
    Except String (List SystemContentBlock × List BedrockMessage)
  | [] => .ok ([], [])
  | m :: rest =>
      match processOne jp hasTools m with
      | .error e => .error e
      | .ok p =>
          match processMessages jp hasTools rest with
          | .error e => .error e
          | .ok q => .ok (p.1 ++ q.1, p.2 ++ q.2)

/-- `chat::bedrock::process_chat_completions_request_to_bedrock_chat_completion`:
runs the message loop, then converts the tool configuration, with
first-error abort in that order. -/
def process_chat_completions_request_to_bedrock_chat_completion
    (jp : String → Option JsonValue) (req : ChatCompletionsRequest) :
    Except String BedrockChatCompletion :=
  match processMessages jp req.tools.isSome req.messages with
  | .error e => .error e
  | .ok sm =>
      match (match req.tools with
             | some ts =>
                 (openai_tools_to_bedrock_tool_config ts req.tool_choice).map some
             | none => .ok none) with
      | .error e => .error e
      | .ok tc =>
          .ok { model_id := req.model
                system_content_blocks := sm.1
                messages := sm.2
                tool_config := tc }

/-- Token usage of a response (`response::Usage`). -/
structure Usage where
  completion_tokens : Int
  prompt_tokens : Int
  total_tokens : Int
deriving DecidableEq, Repr

/-- A function fragment in an outgoing tool call (`response::Function`). -/
structure RFunction where
  name : Option String
  arguments : Option String
deriving DecidableEq, Repr

/-- An outgoing tool-call fragment (`response::ToolCall`). -/
structure RToolCall where
  id : Option String
  tool_type : String
  function : Option RFunction
  index : Option Int
deriving DecidableEq, Repr

/-- An outgoing delta (`response::Delta`). -/
structure Delta where
  content : Option String
  role : Option String
  tool_calls : Option (List RToolCall)
deriving DecidableEq, Repr

/-- An outgoing choice (`response::Choice`). -/
structure Choice where
  delta : Option Delta
  finish_reason : Option String
  index : Int
  logprobs : Option String
deriving DecidableEq, Repr

/-- An outgoing response chunk (`response::ChatCompletionsResponse`). -/
structure ChatCompletionsResponse where
  choices : List Choice
  created : Option Int
  id : Option String
  model : Option String
  object : Option String
  usage : Option Usage
deriving DecidableEq, Repr

/-- `response::ChatCompletionsResponseBuilder`. -/
structure ChatCompletionsResponseBuilder where
  choices : List Choice := []
  created : Option Int := none
  id : Option String := none
  model : Option String := none
  object : Option String := none
  usage : Option Usage := none
deriving Repr

/-- The all-`none` delta used for choice-padding. -/
def emptyDelta : Delta := { content := none, role := none, tool_calls := none }

/-- `ChatCompletionsResponseBuilder::build`: inserts one empty-delta
choice when no choice was added, so every built chunk has a choice. -/
def builderBuild (b : ChatCompletionsResponseBuilder) : ChatCompletionsResponse :=
  let choices :=
    if b.choices.isEmpty then
      [{ delta := some emptyDelta, finish_reason := none, index := 0,
         logprobs := none : Choice }]
    else b.choices
  { choices := choices
    created := b.created
    id := b.id
    model := b.model
    object := b.object
    usage := b.usage }

/-- `aws_sdk_bedrockruntime::types::ContentBlockDelta`. -/
inductive BContentBlockDelta where
  | text (s : String)
  | toolUse (input : String)
  | otherDelta
deriving Repr

/-- `aws_sdk_bedrockruntime::types::ContentBlockStart`. -/
inductive BContentBlockStart where
  | toolUse (tool_use_id : String) (name : String)
  | otherStart
deriving Repr

/-- `aws_sdk_bedrockruntime::types::StopReason`. -/
inductive StopReason where
  | endTurn
  | toolUse
  | maxTokens
  | stopSequence
  | otherReason
deriving DecidableEq, Repr

/-- The usage carried by a Metadata event (`TokenUsage`). -/
structure TokenUsage where
  input_tokens : Int
  output_tokens : Int
  total_tokens : Int
deriving DecidableEq, Repr

/-- `aws_sdk_bedrockruntime::types::ConverseStreamOutput`: the backend
stream-event union (the `other` constructor stands for the unhandled
variants of the SDK enum). -/
inductive ConverseStreamOutput where
  | contentBlockDelta (delta : Option BContentBlockDelta)
  | contentBlockStart (start : Option BContentBlockStart)
  | messageStart (role : ConversationRole)
  | messageStop (stop_reason : StopReason)
  | metadata (usage : Option TokenUsage)
  | other
deriving Repr

/-- `response::tool_use_block_delta_to_tool_call`. -/
def tool_use_block_delta_to_tool_call (input : String) (index : Int) : RToolCall :=
  { id := none
    tool_type := "function"
    function := some { name := none, arguments := some input }
    index := some index }

/-- `response::tool_use_block_start_to_tool_call`. -/
def tool_use_block_start_to_tool_call (tool_use_id : String) (name : String)
    (index : Int) : RToolCall :=
  { id := some tool_use_id
    tool_type := "function"
    function := some { name := some name, arguments := some "" }
    index := some index }

/-- `response::converse_stream_output_to_chat_completions_response_builder`.
Returns the builder together with the list of usage values passed to the
usage callback during the call (the callback fires once per usage seen,
so the list records its invocations in order). -/
def converse_stream_output_to_chat_completions_response_builder
    (o : ConverseStreamOutput) : ChatCompletionsResponseBuilder × List Usage :=
  let base : ChatCompletionsResponseBuilder :=
    { object := some "chat.completion.chunk" }
  match o with
  | .contentBlockDelta ev =>
      let delta := ev.bind fun d =>
        match d with
        | .text t => some { emptyDelta with content := some t }
        | .toolUse input =>
            some { emptyDelta with
                   tool_calls := some [tool_use_block_delta_to_tool_call input 0] }
        | .otherDelta => none
      ({ base with choices := [{ delta := delta, finish_reason := none,
                                 index := 0, logprobs := none }] }, [])
  | .contentBlockStart ev =>
      let delta := ev.bind fun s =>
        match s with
        | .toolUse tid name =>
            some { emptyDelta with
                   tool_calls := some [tool_use_block_start_to_tool_call tid name 0] }
        | .otherStart => none
      ({ base with choices := [{ delta := delta, finish_reason := none,
                                 index := 0, logprobs := none }] }, [])
  | .messageStart role =>
      let delta : Delta :=
        { content := match role with
            | .assistant => some ""
            | _ => none
          role := match role with
            | .assistant => some "assistant"
            | _ => none
          tool_calls := none }
      ({ base with choices := [{ delta := some delta, finish_reason := none,
                                 index := 0, logprobs := none }] }, [])
  | .messageStop stop_reason =>
      let finish : Option String :=
        match stop_reason with
        | .endTurn => some "stop"
        | .toolUse => some "tool_calls"
        | .maxTokens => some "length"
        | .stopSequence => some "stop"
        | .otherReason => some "stop"
      ({ base with choices := [{ delta := some emptyDelta,
                                 finish_reason := finish,
                                 index := 0, logprobs := none }] }, [])
  | .metadata ev =>
      let usage := ev.map fun u =>
        { completion_tokens := u.output_tokens
          prompt_tokens := u.input_tokens
          total_tokens := u.total_tokens : Usage }
      ({ base with choices := [{ delta := some emptyDelta, finish_reason := none,
                                 index := 0, logprobs := none }]
                   usage := usage },
       usage.toList)
  | .other =>
      ({ base with choices := [{ delta := some emptyDelta, finish_reason := none,
                                 index := 0, logprobs := none }] }, [])

/-- One item yielded by a provider stream: a serialized chunk, the
terminal sentinel, or an error item.  (`create_sse_event` serializes
the chunk with `serde_json::to_string`, which is total on these
structures, so serialization is modelled as always succeeding.) -/
inductive StreamItem where
  | data (r : ChatCompletionsResponse)
  | done
  | errItem (msg : String)
deriving DecidableEq, Repr

/-- The stream loop of
`BedrockChatCompletionsProvider::chat_completions_stream`
(`chat::providers`): the backend event sequence is a list of
receive results (`Ok(Some(out))` items, in order, then `Ok(None)`);
each event yields one item, a receive error yields one error item and
the loop continues, and after end-of-stream the terminal sentinel is
yielded.  Also returns the usage-callback invocations in order. -/
def processBedrockEvents (id : String) (created : Int) :
    List (Except String ConverseStreamOutput) → List StreamItem × List Usage
  | [] => ([.done], [])
  | .ok o :: rest =>
      let r := converse_stream_output_to_chat_completions_response_builder o
      let resp := builderBuild { r.1 with id := some id, created := some created }
      let q := processBedrockEvents id created rest
      (.data resp :: q.1, r.2 ++ q.2)
  | .error e :: rest =>
      let q := processBedrockEvents id created rest
      (.errItem ("Stream receive error: " ++ e) :: q.1, q.2)

/-- The empty string (named, for defaulting). -/
def emptyStr : String := ""

/-- Rust `str::trim` over a character list (leading and trailing
whitespace removed; ASCII whitespace suffices for the SSE line
grammar). -/
def trimL (l : List Char) : List Char :=
  ((l.dropWhile Char.isWhitespace).reverse.dropWhile Char.isWhitespace).reverse

/-- Splitting a character buffer at every newline: all segments, the
last being the part after the final newline (the whole buffer when no
newline occurs). -/
def splitNl : List Char → List (List Char)
  | [] => [[]]
  | c :: rest =>
      let segs := splitNl rest
      if c = '\n' then [] :: segs
      else
        match segs with
        | s :: ss => (c :: s) :: ss
        | [] => [[c]]

/-- The line-splitting step of the re-chunker: the `while find('\n')`
loop pops every complete line (trimmed) off the buffer and keeps the
remainder: all newline-terminated segments are complete lines, the
trailing segment is the new buffer. -/
def splitBufferLines (buf : String) : List String × String :=
  let segs := splitNl buf.toList
  (segs.dropLast.map fun l => String.mk (trimL l),
   String.mk (segs.getLastD []))

/-- The line `data: [DONE]` (verbatim). -/
def doneLine : String := "data: [DONE]"

/-- The `data: ` payload marker (verbatim). -/
def dataTag : String := "data: "

/-- `line.strip_prefix("data: ")`. -/
def stripDataTag (line : String) : Option String :=
  if dataTag.toList.isPrefixOf line.toList then
    some (String.mk (line.toList.drop dataTag.toList.length))
  else none

/-- What one complete line feeds onward in the re-chunker loop of
`OpenAIChatCompletionsProvider::chat_completions_stream`
(`chat::openai`): nothing for a blank line, the terminal sentinel for
`data: [DONE]`, the JSON payload handed to the external
`serde_json::from_str` for a `data: `-tagged line, nothing otherwise. -/
inductive RechunkItem where
  | payloadItem (json : String)
  | doneItem
deriving DecidableEq, Repr

/-- Per-line processing of the re-chunker. -/
def processLine (line : String) : List RechunkItem :=
  if line.toList.isEmpty then []
  else if line = doneLine then [.doneItem]
  else
    match stripDataTag line with
    | some payload => [.payloadItem payload]
    | none => []

/-- The byte-chunk loop of the re-chunker: each received chunk is
appended to the growable buffer, complete lines are processed in order,
and the remainder is retained for the next chunk.  A leftover buffer
with no trailing newline is dropped when the byte stream ends. -/
def rechunkSteps : List String → String → List RechunkItem
  | [], _ => []
  | chunk :: rest, buf =>
      let buf2 := buf ++ chunk
      let (lines, rem) := splitBufferLines buf2
      ((lines.map processLine).flatten) ++ rechunkSteps rest rem

/-- The re-chunker over a whole byte-chunk sequence, starting from an
empty buffer. -/
def rechunk (chunks : List String) : List RechunkItem :=
  rechunkSteps chunks emptyStr

/-- Substring test over character lists (Rust `str::contains`). -/
def hasInfixL (pat : List Char) : List Char → Bool
  | [] => pat.isEmpty
  | c :: rest => pat.isPrefixOf (c :: rest) || hasInfixL pat rest

/-- Rust `String::contains` with a string needle. -/
def containsSub (s pat : String) : Bool :=
  hasInfixL pat.toList s.toList

/-- The needle checked by `AppError::into_response`. -/
def streamingRequiredNeedle : String := "Streaming is required"

/-- The error message produced by the `chat_completions` handler when
streaming is disabled. -/
def streamingRequiredMsg : String := "Streaming is required but was disabled"

/-- `server::error::AppError::into_response`: the HTTP status code and
body produced from an error's text. -/
def appErrorIntoResponse (msg : String) : Nat × String :=
  let status := if containsSub msg streamingRequiredNeedle then 400 else 500
  (status, "Error: " ++ msg)

/-- The provider chosen by the `chat_completions` handler. -/
inductive ProviderChoice where
  | openai
  | bedrock
deriving DecidableEq, Repr

/-- The model-name tag selecting the OpenAI provider. -/
def gptTag : String := "gpt-"

/-- The model-name tag selecting the OpenAI provider (Claude models). -/
def claudeTag : String := "claude-"

/-- Provider selection of `server::main::chat_completions`. -/
def chooseProvider (model : String) : ProviderChoice :=
  if gptTag.toList.isPrefixOf model.toList
      || claudeTag.toList.isPrefixOf model.toList then .openai
  else .bedrock

/-- The stream gate and provider dispatch of
`server::main::chat_completions`: requests with `stream == Some(false)`
are rejected before any provider is constructed; all others proceed to
the streaming path with the chosen provider. -/
def chat_completions (req : ChatCompletionsRequest) : Except String ProviderChoice :=
  if req.stream == some false then .error streamingRequiredMsg
  else .ok (chooseProvider req.model)

/-! ## Specification-side definitions and concrete inputs -/

/-- A JSON parser that always fails (a legitimate instantiation of the
external `serde_json::from_str` collaborator, used for concrete runs
that parse no JSON). -/
def jpNone : String → Option JsonValue := fun _ => none

/-- Spec side: the group of system blocks one message should contribute
(string content: one text block; block-list content: one block per text
block; non-System or content-free messages: none). -/
def specSystemGroup (m : Message) : List SystemContentBlock :=
  if m.role = .system then
    match m.contents with
    | some (.string s) => [.text s]
    | some (.array bs) => bs.map fun b => match b with
        | .text t => .text t
    | none => []
  else []

/-- Spec side (§4.3 transition table): the finish reason for each stop
reason. -/
def specFinishReason : StopReason → String
  | .endTurn => "stop"
  | .toolUse => "tool_calls"
  | .maxTokens => "length"
  | .stopSequence => "stop"
  | .otherReason => "stop"

/-- The single output item of the bedrock stream loop for one receive
result. -/
def bedrockItemOf (id : String) (created : Int) :
    Except String ConverseStreamOutput → StreamItem
  | .ok o =>
      .data (builderBuild
        { (converse_stream_output_to_chat_completions_response_builder o).1 with
          id := some id, created := some created })
  | .error e => .errItem ("Stream receive error: " ++ e)

/-- The usage-callback invocations of the bedrock stream loop for one
receive result. -/
def bedrockUsagesOf : Except String ConverseStreamOutput → List Usage
  | .ok o => (converse_stream_output_to_chat_completions_response_builder o).2
  | .error _ => []

/-- A request with a single Tool-role message that has contents but no
`tool_call_id`. -/
def reqToolNoId : ChatCompletionsRequest :=
  { model := "m"
    messages := [{ contents := some (.string "ok"), role := .tool,
                   tool_calls := none, tool_call_id := none }]
    stream := none
    tools := none
    tool_choice := none }

/-- A tool definition with an empty-object parameter schema. -/
def toolT : OpenAITool :=
  { tool_type := "function"
    function := { name := "f", description := none, parameters := .obj [] } }

/-- A request declaring one tool, with a single System message whose
content is a block list of one text block. -/
def reqSysWithTools : ChatCompletionsRequest :=
  { model := "m"
    messages := [{ contents := some (.array [.text "a"]), role := .system,
                   tool_calls := none, tool_call_id := none }]
    stream := none
    tools := some [toolT]
    tool_choice := none }

/-- An assistant tool call with unparseable arguments. -/
def callC3 : OpenAIToolCall :=
  { id := "c1", tool_type := "function",
    function := { name := "f", arguments := "bad" } }

/-- A request with a single Assistant message that carries one tool call
and no content. -/
def reqAssistantToolOnly : ChatCompletionsRequest :=
  { model := "m"
    messages := [{ contents := none, role := .assistant,
                   tool_calls := some [callC3], tool_call_id := none }]
    stream := none
    tools := none
    tool_choice := none }

/-- An all-System request without tools (two system messages: a string
and a two-block list). -/
def reqAllSystem : ChatCompletionsRequest :=
  { model := "m"
    messages := [{ contents := some (.string "a"), role := .system,
                   tool_calls := none, tool_call_id := none },
                 { contents := some (.array [.text "b", .text "c"]),
                   role := .system,
                   tool_calls := none, tool_call_id := none }]
    stream := none
    tools := none
    tool_choice := none }

/-- The translation of `reqAllSystem`. -/
def bcAllSystem : BedrockChatCompletion :=
  { model_id := "m"
    system_content_blocks := [.text "a", .text "b", .text "c"]
    messages := []
    tool_config := none }

/-- The first raw SSE fragment of the buffering scenario: a `data: `
line cut in the middle of its JSON payload. -/
def fragA : String := "data: \x7b\"i"

/-- The second raw SSE fragment: the rest of the JSON payload and the
terminating newline. -/
def fragB : String := "d\":\"x\"\x7d\n"

/-- The reassembled JSON payload of the buffering scenario. -/
def jsonIdX : String := "\x7b\"id\":\"x\"\x7d"

/-- A backend error text mentioning throttling. -/
def throttleMsg : String := "Throttling: rate exceeded"

/-- The stable code the spec's classifier would assign to throttling. -/
def rateLimitCode : String := "rate_limit_exceeded"

/-- The data chunk produced from an unrecognized backend event by the
stream loop (used as a concrete emitted chunk). -/
def chunkOther : ChatCompletionsResponse :=
  { choices := [{ delta := some emptyDelta, finish_reason := none,
                  index := 0, logprobs := none }]
    created := some 0
    id := some "w"
    model := none
    object := some "chat.completion.chunk"
    usage := none }

/-! ## Helper lemmas -/

theorem builderBuild_choices_pos (b : ChatCompletionsResponseBuilder) :
    1 ≤ (builderBuild b).choices.length := by
  cases hc : b.choices with
  | nil => simp [builderBuild, hc]
  | cons x xs => simp [builderBuild, hc]

theorem processOne_fst_noTools (jp : String → Option JsonValue) (m : Message)
    (p : List SystemContentBlock × List BedrockMessage)
    (h : processOne jp false m = .ok p) : p.1 = specSystemGroup m := by
  obtain ⟨c, role, tcs, tid⟩ := m
  cases role with
  | assistant | user =>
      simp only [processOne] at h
      split at h
      · cases h
        simp [specSystemGroup]
      · cases hm : messageTryFrom jp ⟨c, _, tcs, tid⟩ <;> rw [hm] at h
        · cases h
        · cases h
          simp [specSystemGroup]
  | system =>
      simp only [processOne] at h
      cases c with
      | none => cases h; simp [specSystemGroup]
      | some c0 =>
          cases h
          cases c0 <;> simp [specSystemGroup, systemGroup, contentsToSystemBlocks]
  | tool =>
      simp only [processOne] at h
      cases c with
      | none => cases h; simp [specSystemGroup]
      | some c0 => cases h; simp [specSystemGroup]

theorem processOne_snd_system (jp : String → Option JsonValue) (ht : Bool)
    (m : Message) (p : List SystemContentBlock × List BedrockMessage)
    (h : processOne jp ht m = .ok p) (hr : m.role = .system) : p.2 = [] := by
  obtain ⟨c, role, tcs, tid⟩ := m
  cases hr
  simp only [processOne] at h
  cases c with
  | none => cases h; rfl
  | some c0 => cases h; rfl

theorem processMessages_fst_noTools (jp : String → Option JsonValue) :
    ∀ (msgs : List Message) (p : List SystemContentBlock × List BedrockMessage),
      processMessages jp false msgs = .ok p →
      p.1 = (msgs.map specSystemGroup).flatten := by
  intro msgs
  induction msgs with
  | nil => intro p h; cases h; rfl
  | cons m rest ih =>
      intro p h
      simp only [processMessages] at h
      cases h1 : processOne jp false m <;> rw [h1] at h
      · cases h
      · cases h2 : processMessages jp false rest <;> rw [h2] at h
        · cases h
        · cases h
          simp [processOne_fst_noTools jp m _ h1, ih _ h2]

theorem processMessages_snd_allSystem (jp : String → Option JsonValue) (ht : Bool) :
    ∀ (msgs : List Message) (p : List SystemContentBlock × List BedrockMessage),
      processMessages jp ht msgs = .ok p →
      (∀ m ∈ msgs, m.role = .system) → p.2 = [] := by
  intro msgs
  induction msgs with
  | nil => intro p h _; cases h; rfl
  | cons m rest ih =>
      intro p h hall
      simp only [processMessages] at h
      cases h1 : processOne jp ht m <;> rw [h1] at h
      · cases h
      · cases h2 : processMessages jp ht rest <;> rw [h2] at h
        · cases h
        · cases h
          have hm : m.role = .system := hall m (by simp)
          have hrest : ∀ x ∈ rest, x.role = .system := fun x hx => hall x (by simp [hx])
          simp [processOne_snd_system jp ht m _ h1 hm, ih _ h2 hrest]

/-! ## Claims -/

/-- C1 counterexample: a request whose single message has role Tool,
contents present, and no `tool_call_id` translates successfully (to a
User message wrapping the content as a function result) instead of
failing with a translation error. -/
theorem c1_tool_message_without_id_succeeds :
    process_chat_completions_request_to_bedrock_chat_completion jpNone reqToolNoId =
      .ok { model_id := "m", system_content_blocks := [],
            messages := [{ role := .user,
                           content := [ContentBlock.text "Function result: ok"] }],
            tool_config := none } := by rfl

/-- C1 (amended): translation never fails on a Tool-role message and
never consults `tool_call_id`: a Tool message with contents present
becomes one User backend message whose only block is the text
`Function result: ` followed by the reduced content, and a Tool message
without contents is silently skipped. -/
theorem c1_amended_tool_messages_never_fail (jp : String → Option JsonValue)
    (ht : Bool) (c : Option Contents) (tc : Option (List OpenAIToolCall))
    (tid : Option String) :
    processOne jp ht { contents := c, role := .tool, tool_calls := tc,
                       tool_call_id := tid } =
      .ok ([],
        match c with
        | none => []
        | some c0 =>
            [{ role := .user,
               content := [ContentBlock.text ("Function result: " ++ toolResultText c0)] }]) := by
  cases c <;> rfl

/-- C2 counterexample: with tools declared, a System message whose
content is a block list of one text block contributes three system
blocks (the block twice plus the injected instruction block), not
exactly one block per text block. -/
theorem c2_system_blocks_tripled_with_tools :
    (process_chat_completions_request_to_bedrock_chat_completion jpNone
        reqSysWithTools).map (fun bc => bc.system_content_blocks) =
      .ok [.text "a", .text "a", .text importantNote] ∧
    (process_chat_completions_request_to_bedrock_chat_completion jpNone
        reqSysWithTools).map (fun bc => bc.system_content_blocks.length) =
      .ok 3 ∧ (3 : Nat) ≠ 1 :=
  ⟨rfl, rfl, by decide⟩

/-- C2 (amended): when the request declares no tools, each System
message contributes exactly one group of system blocks, in message
order (string content: one text block; block-list content: one block
per text block; absent contents: none), and System-role input
contributes zero backend messages.  (With tools declared, system
content is instead enhanced: one combined block for string content,
`2n+1` blocks for an `n`-block list.) -/
theorem c2_amended_system_translation (jp : String → Option JsonValue)
    (req : ChatCompletionsRequest) (bc : BedrockChatCompletion)
    (h1 : req.tools = none)
    (h2 : process_chat_completions_request_to_bedrock_chat_completion jp req = .ok bc) :
    bc.system_content_blocks = (req.messages.map specSystemGroup).flatten ∧
    ((∀ m ∈ req.messages, m.role = .system) → bc.messages = []) := by
  unfold process_chat_completions_request_to_bedrock_chat_completion at h2
  rw [h1] at h2
  simp only [Option.isSome_none] at h2
  cases hm : processMessages jp false req.messages <;> rw [hm] at h2
  · cases h2
  · cases h2
    constructor
    · exact processMessages_fst_noTools jp req.messages _ hm
    · intro hall
      exact processMessages_snd_allSystem jp false req.messages _ hm hall

/-- C2 witness: the amended statement at a concrete all-System request
without tools. -/
theorem c2_amended_system_translation_witness :
    bcAllSystem.system_content_blocks =
      (reqAllSystem.messages.map specSystemGroup).flatten ∧
    ((∀ m ∈ reqAllSystem.messages, m.role = .system) → bcAllSystem.messages = []) :=
  c2_amended_system_translation jpNone reqAllSystem bcAllSystem rfl rfl

/-- C3 counterexample: an Assistant message carrying one tool call and
no content is skipped entirely by translation — the resulting backend
message list is empty, so no backend message contains a ToolUse block
for the call. -/
theorem c3_assistant_tool_only_skipped :
    process_chat_completions_request_to_bedrock_chat_completion jpNone
        reqAssistantToolOnly =
      .ok { model_id := "m", system_content_blocks := [], messages := [],
            tool_config := none } := by rfl

/-- C3 (amended): an Assistant message with `tool_calls` present whose
contents are absent or an empty string is skipped (no backend message);
otherwise its backend message consists of the text blocks derived from
its contents followed by exactly one ToolUse block per tool call, in
input order. -/
theorem c3_amended_assistant_tool_calls (jp : String → Option JsonValue)
    (ht : Bool) (c : Option Contents) (tcs : List OpenAIToolCall)
    (tid : Option String) :
    processOne jp ht { contents := c, role := .assistant, tool_calls := some tcs,
                       tool_call_id := tid } =
      .ok ([],
        match c with
        | none => []
        | some (.string s) =>
            if s.isEmpty then []
            else [{ role := .assistant,
                    content := ContentBlock.text s ::
                      tcs.map fun t => ContentBlock.toolUse (toolUseBlockOfCall jp t) }]
        | some (.array bs) =>
            [{ role := .assistant,
               content := (bs.map fun b => match b with
                   | .text t => ContentBlock.text t) ++
                 tcs.map fun t => ContentBlock.toolUse (toolUseBlockOfCall jp t) }]) := by
  cases c with
  | none => rfl
  | some c0 =>
      cases c0 with
      | string s =>
          by_cases hs : s.isEmpty <;>
            simp [processOne, assistantSkip, messageTryFrom,
                  contentsToContentBlocks, bedrockMessageBuild, Except.map, hs]
      | array bs =>
          simp [processOne, assistantSkip, messageTryFrom,
                contentsToContentBlocks, bedrockMessageBuild, Except.map]

/-- C4: the backend event sequence MessageStart(Assistant),
ContentBlockDelta(Text "Hi"), MessageStop(EndTurn), Metadata(usage
5/2/7) yields, in order, a role chunk, a content chunk "Hi", a
finish_reason "stop" chunk, a usage chunk, then the terminal sentinel,
and the usage callback fires exactly once with prompt 5, completion 2,
total 7. -/
theorem c4_stream_trace :
    processBedrockEvents "id0" 0
      [ .ok (.messageStart .assistant),
        .ok (.contentBlockDelta (some (.text "Hi"))),
        .ok (.messageStop .endTurn),
        .ok (.metadata (some { input_tokens := 5, output_tokens := 2,
                               total_tokens := 7 })) ] =
      ([ .data { choices := [{ delta := some { content := some "",
                                               role := some "assistant",
                                               tool_calls := none },
                               finish_reason := none, index := 0,
                               logprobs := none }],
                 created := some 0, id := some "id0", model := none,
                 object := some "chat.completion.chunk", usage := none },
         .data { choices := [{ delta := some { content := some "Hi",
                                               role := none,
                                               tool_calls := none },
                               finish_reason := none, index := 0,
                               logprobs := none }],
                 created := some 0, id := some "id0", model := none,
                 object := some "chat.completion.chunk", usage := none },
         .data { choices := [{ delta := some emptyDelta,
                               finish_reason := some "stop", index := 0,
                               logprobs := none }],
                 created := some 0, id := some "id0", model := none,
                 object := some "chat.completion.chunk", usage := none },
         .data { choices := [{ delta := some emptyDelta,
                               finish_reason := none, index := 0,
                               logprobs := none }],
                 created := some 0, id := some "id0", model := none,
                 object := some "chat.completion.chunk",
                 usage := some { completion_tokens := 2, prompt_tokens := 5,
                                 total_tokens := 7 } },
         .done ],
       [ { completion_tokens := 2, prompt_tokens := 5, total_tokens := 7 } ]) := by
  rfl

/-- C5: for every MessageStop event the produced single choice carries
the finish reason given by the total mapping EndTurn -> stop,
ToolUse -> tool_calls, MaxTokens -> length, StopSequence and any other
reason -> stop (deterministic and total since it is a Lean function on
the stop-reason type). -/
theorem c5_finish_reason_mapping (sr : StopReason) :
    (converse_stream_output_to_chat_completions_response_builder
        (.messageStop sr)).1.choices =
      [{ delta := some emptyDelta, finish_reason := some (specFinishReason sr),
         index := 0, logprobs := none }] := by
  cases sr <;> rfl

/-- C6: every data chunk emitted by the bedrock stream loop — whatever
the backend event sequence, including metadata, usage-less metadata and
unrecognized events — has at least one choice, guaranteed by the
builder's build step. -/
theorem c6_every_chunk_has_choice (id : String) (created : Int)
    (evs : List (Except String ConverseStreamOutput))
    (r : ChatCompletionsResponse)
    (h : StreamItem.data r ∈ (processBedrockEvents id created evs).1) :
    1 ≤ r.choices.length := by
  induction evs with
  | nil => simp [processBedrockEvents] at h
  | cons e rest ih =>
      cases e with
      | ok o =>
          simp only [processBedrockEvents, List.mem_cons, StreamItem.data.injEq] at h
          rcases h with h | h
          · subst h
            exact builderBuild_choices_pos _
          · exact ih h
      | error s =>
          simp only [processBedrockEvents, List.mem_cons] at h
          rcases h with h | h
          · cases h
          · exact ih h

/-- C6 witness: a concrete emitted chunk (from an unrecognized event)
with at least one choice. -/
theorem c6_every_chunk_has_choice_witness :
    StreamItem.data chunkOther ∈ (processBedrockEvents "w" 0 [.ok .other]).1 ∧
    1 ≤ chunkOther.choices.length :=
  ⟨by decide,
   c6_every_chunk_has_choice "w" 0 [.ok .other] chunkOther (by decide)⟩

/-- C7: the SSE re-chunker buffers partial lines across byte-chunk
boundaries: fed the two raw fragments, it hands the external JSON
parser exactly one payload, the reassembled object text. -/
theorem c7_rechunk_buffers_partial_lines :
    rechunk [fragA, fragB] = [.payloadItem jsonIdX] := by rfl

/-- C8 counterexample: an error whose text contains
`Throttling: rate exceeded` is not classified — the server responds
with plain HTTP 500 (not a throttle status) and a body that nowhere
contains the code `rate_limit_exceeded`. -/
theorem c8_throttling_not_classified :
    appErrorIntoResponse throttleMsg = (500, "Error: " ++ throttleMsg) ∧
    containsSub ("Error: " ++ throttleMsg) rateLimitCode = false ∧
    (500 : Nat) ≠ 429 :=
  ⟨rfl, by decide, by decide⟩

/-- C8 (amended): the server has no content-based error classifier:
every error whose text does not contain `Streaming is required` —
including backend throttling failures — is mapped to HTTP 500 with body
`Error: ` followed by the error text. -/
theorem c8_amended_error_response (msg : String)
    (h : containsSub msg streamingRequiredNeedle = false) :
    appErrorIntoResponse msg = (500, "Error: " ++ msg) := by
  simp [appErrorIntoResponse, h]

/-- C8 witness: the amended statement at the throttling error text. -/
theorem c8_amended_error_response_witness :
    containsSub throttleMsg streamingRequiredNeedle = false ∧
    appErrorIntoResponse throttleMsg = (500, "Error: " ++ throttleMsg) :=
  ⟨by decide, c8_amended_error_response throttleMsg (by decide)⟩

/-- C9 counterexample: after a mid-stream receive error the loop keeps
consuming backend events — here it emits the error item and then a
normal content chunk from the next event, with the sentinel only at
input end — refuting immediate termination after the error. -/
theorem c9_stream_continues_after_receive_error :
    processBedrockEvents "i" 0
      [ .error "boom", .ok (.contentBlockDelta (some (.text "x"))) ] =
      ([ .errItem "Stream receive error: boom",
         .data { choices := [{ delta := some { content := some "x",
                                               role := none,
                                               tool_calls := none },
                               finish_reason := none, index := 0,
                               logprobs := none }],
                 created := some 0, id := some "i", model := none,
                 object := some "chat.completion.chunk", usage := none },
         .done ], []) := by rfl

/-- C9 (amended): the bedrock stream loop emits exactly one item per
receive result — an error item for each receive error, a chunk for each
event — continues consuming after errors, and yields the terminal
sentinel exactly once, when the backend reports end-of-stream. -/
theorem c9_amended_stream_loop (id : String) (created : Int)
    (evs : List (Except String ConverseStreamOutput)) :
    processBedrockEvents id created evs =
      (evs.map (bedrockItemOf id created) ++ [.done],
       (evs.map bedrockUsagesOf).flatten) := by
  induction evs with
  | nil => rfl
  | cons e rest ih =>
      cases e with
      | ok o => simp [processBedrockEvents, bedrockItemOf, bedrockUsagesOf, ih]
      | error s => simp [processBedrockEvents, bedrockItemOf, bedrockUsagesOf, ih]

/-- C10: the handler rejects a request with `stream = Some(false)` with
the error `Streaming is required but was disabled` before any provider
is chosen, and proceeds to the streaming path (choosing a provider by
model name) when `stream` is absent or true. -/
theorem c10_stream_gate (model : String) (msgs : List Message)
    (st : Option Bool) (tools : Option (List OpenAITool))
    (tc : Option OpenAIToolChoice) :
    chat_completions { model := model, messages := msgs, stream := st,
                       tools := tools, tool_choice := tc } =
      match st with
      | some false => .error streamingRequiredMsg
      | _ => .ok (chooseProvider model) := by
  cases st with
  | none => rfl
  | some b => cases b <;> rfl

end LlmProxy
